import Mathlib

/-!
Verification of the XR session-lifecycle and view-pool subsystem of a
browser 3D engine (`src/framework/xr/xr-manager.js`), plus the scene-depth-map
request counter of the camera component
(`src/framework/components/camera/component.js`).

The JavaScript source is shallowly embedded: mutable object state becomes
explicit state records, asynchronous completions become explicit step
functions, and externally observable actions (callbacks, fired events,
host-API requests) are recorded in an effect list.
-/

open scoped List

namespace XrPool

/-- State of the per-frame view list and the recycling pool
(`XrManager.views` / `XrManager.viewsPool`).  View records are modelled by
numeric identities; a freshly allocated record (the zero-initialized object
literal of `update`, lines 693-704) receives the next unused identity, so
`nextId` counts how many fresh records have ever been allocated. -/
structure ViewState where
  views : List Nat
  pool : List Nat
  nextId : Nat
deriving DecidableEq, Repr

/-- Body of one iteration of the growth loop (`update`, lines 691-707):
`let view = this.viewsPool.pop(); if (!view) view = { ...fresh... };
this.views.push(view);`.  JavaScript `pop` removes the last array element and
returns `undefined` on an empty array, in which case a fresh record is
allocated. -/
def growStep (st : ViewState) : ViewState :=
  match st.pool.getLast? with
  | some v => { st with pool := st.pool.dropLast, views := st.views.concat v }
  | none => { st with views := st.views.concat st.nextId, nextId := st.nextId + 1 }

/-- The growth loop of `update` (line 690):
`for (let i = 0; i <= (lengthNew - this.views.length); i++)`.
The bound re-reads `this.views.length`, which the body mutates, so the
comparison is re-evaluated against the current length each iteration; the
subtraction is JavaScript number arithmetic, hence modelled on `Int`. -/
def growLoop (lengthNew : Nat) (i : Nat) (st : ViewState) : ViewState :=
  if _h : (i : Int) ≤ (lengthNew : Int) - (st.views.length : Int) then
    growLoop lengthNew (i + 1) (growStep st)
  else st
termination_by lengthNew + 1 - i
decreasing_by omega

/-- The shrink loop of `update` (lines 711-713):
`for (let i = 0; i < (this.views.length - lengthNew); i++)
 { this.viewsPool.push(this.views.pop()); }`.
Again the bound re-reads the mutated `this.views.length`.  Under the loop
guard `views` is nonempty, so the `getLastD` default is never used. -/
def shrinkLoop (lengthNew : Nat) (i : Nat) (st : ViewState) : ViewState :=
  if _h : (i : Int) < (st.views.length : Int) - (lengthNew : Int) then
    shrinkLoop lengthNew (i + 1)
      { st with views := st.views.dropLast,
                pool := st.pool.concat (st.views.getLastD 0) }
  else st
termination_by st.views.length - i
decreasing_by simp only [List.length_dropLast]; omega

/-- The view-list resize step of `update` (lines 688-714):
grow when the pose reports more views than currently active, otherwise
(`lengthNew <= this.views.length`) shrink. -/
def resize (st : ViewState) (lengthNew : Nat) : ViewState :=
  if st.views.length < lengthNew then growLoop lengthNew 0 st
  else shrinkLoop lengthNew 0 st

/-- A frame with `v` pose views is processed without faulting only if, after
the resize step, the active list has at least `v` entries: the per-view write
loop of `update` (lines 724-738) reads `this.views[i]` for every
`i < pose.views.length`. -/
def updateOk (st : ViewState) (v : Nat) : Bool :=
  v ≤ (resize st v).views.length

/-- Successive frames of one session, each applying the resize step for its
pose view count. -/
def runFrames (st : ViewState) (vs : List Nat) : ViewState :=
  vs.foldl resize st

/-- Every frame of the sequence is processed without faulting. -/
def allFramesOk : ViewState → List Nat → Bool
  | _, [] => true
  | st, v :: vs => updateOk st v && allFramesOk (resize st v) vs

/-- Largest view count of a frame sequence. -/
def maxViews (vs : List Nat) : Nat :=
  vs.foldr max 0

/-- Manager state at session start: the active list is empty (`views` is
reset to `[]` by the `onEnd` teardown, lines 594, and is initialized empty),
while the pool persists across sessions. -/
def startSession (pool : List Nat) (nextId : Nat) : ViewState :=
  { views := [], pool := pool, nextId := nextId }

/-- Number of growth-loop iterations executed from loop counter `i` in a
state whose active list has length `len`. -/
def growCount (lengthNew i len : Nat) : Nat :=
  if i + len ≤ lengthNew then (lengthNew - i - len) / 2 + 1 else 0

/-- Number of shrink-loop iterations executed from loop counter `i` in a
state whose active list has length `len`. -/
def shrinkCount (lengthNew i len : Nat) : Nat :=
  (len - (lengthNew + i) + 1) / 2

theorem growStep_views_length (st : ViewState) :
    (growStep st).views.length = st.views.length + 1 := by
  unfold growStep
  cases h : st.pool.getLast? <;> simp

theorem growStep_pool_length (st : ViewState) :
    (growStep st).pool.length = st.pool.length - 1 := by
  unfold growStep
  cases h : st.pool.getLast? with
  | none =>
    have : st.pool = [] := List.getLast?_eq_none_iff.mp h
    simp [this]
  | some v =>
    have hne : st.pool ≠ [] := by
      intro hnil; rw [hnil] at h; simp at h
    simp [List.length_dropLast]

theorem growStep_nextId (st : ViewState) :
    (growStep st).nextId = st.nextId + (if st.pool.length = 0 then 1 else 0) := by
  unfold growStep
  cases h : st.pool.getLast? with
  | none =>
    have hp : st.pool = [] := List.getLast?_eq_none_iff.mp h
    simp [hp]
  | some v =>
    have hne : st.pool ≠ [] := by
      intro hnil; rw [hnil] at h; exact Option.noConfusion h
    have hlen : ¬ st.pool.length = 0 := by
      simpa [List.length_eq_zero] using hne
    simp [hlen]

theorem growStep_conserve (st : ViewState) :
    (st.views ++ st.pool) <+~ ((growStep st).views ++ (growStep st).pool) := by
  unfold growStep
  cases h : st.pool.getLast? with
  | none =>
    have hp : st.pool = [] := List.getLast?_eq_none_iff.mp h
    simp only [hp, List.concat_eq_append, List.append_nil]
    exact (List.sublist_append_left _ _).subperm
  | some v =>
    have hsplit : st.pool.dropLast ++ [v] = st.pool :=
      List.dropLast_append_getLast? v (Option.mem_def.mpr h)
    apply List.Perm.subperm
    calc st.views ++ st.pool
        = st.views ++ (st.pool.dropLast ++ [v]) := by rw [hsplit]
      _ ~ st.views ++ ([v] ++ st.pool.dropLast) :=
          List.Perm.append_left _ List.perm_append_comm
      _ = st.views.concat v ++ st.pool.dropLast := by
          simp [List.concat_eq_append]

theorem growLoop_spec (lengthNew : Nat) :
    ∀ fuel i st, lengthNew + 1 - i ≤ fuel →
      (growLoop lengthNew i st).views.length =
          st.views.length + growCount lengthNew i st.views.length ∧
      (growLoop lengthNew i st).pool.length =
          st.pool.length - growCount lengthNew i st.views.length ∧
      (growLoop lengthNew i st).nextId =
          st.nextId + (growCount lengthNew i st.views.length - st.pool.length) ∧
      (st.views ++ st.pool) <+~
          ((growLoop lengthNew i st).views ++ (growLoop lengthNew i st).pool) := by
  intro fuel
  induction fuel with
  | zero =>
    intro i st hf
    have hcond : ¬ ((i : Int) ≤ (lengthNew : Int) - (st.views.length : Int)) := by
      omega
    rw [growLoop, dif_neg hcond]
    have hc : growCount lengthNew i st.views.length = 0 := by
      unfold growCount
      rw [if_neg]
      omega
    rw [hc]
    exact ⟨by omega, by omega, by omega, List.Subperm.refl _⟩
  | succ fuel ih =>
    intro i st hf
    by_cases hcond : (i : Int) ≤ (lengthNew : Int) - (st.views.length : Int)
    · rw [growLoop, dif_pos hcond]
      obtain ⟨h1, h2, h3, h4⟩ := ih (i + 1) (growStep st) (by omega)
      rw [growStep_views_length] at h1 h2 h3
      rw [growStep_pool_length] at h2
      rw [growStep_nextId, growStep_pool_length] at h3
      refine ⟨?_, ?_, ?_, (growStep_conserve st).trans h4⟩
      · rw [h1]
        unfold growCount
        split_ifs <;> omega
      · rw [h2]
        unfold growCount
        split_ifs <;> omega
      · rw [h3]
        unfold growCount
        split_ifs <;> omega
    · rw [growLoop, dif_neg hcond]
      have hc : growCount lengthNew i st.views.length = 0 := by
        unfold growCount
        rw [if_neg]
        omega
      rw [hc]
      exact ⟨by omega, by omega, by omega, List.Subperm.refl _⟩

theorem shrinkLoop_spec (lengthNew : Nat) :
    ∀ fuel i st, st.views.length - i ≤ fuel →
      (shrinkLoop lengthNew i st).views.length =
          st.views.length - shrinkCount lengthNew i st.views.length ∧
      (shrinkLoop lengthNew i st).pool.length =
          st.pool.length + shrinkCount lengthNew i st.views.length ∧
      (shrinkLoop lengthNew i st).nextId = st.nextId ∧
      (st.views ++ st.pool) ~
          ((shrinkLoop lengthNew i st).views ++ (shrinkLoop lengthNew i st).pool) := by
  intro fuel
  induction fuel with
  | zero =>
    intro i st hf
    have hcond : ¬ ((i : Int) < (st.views.length : Int) - (lengthNew : Int)) := by
      omega
    rw [shrinkLoop, dif_neg hcond]
    have hc : shrinkCount lengthNew i st.views.length = 0 := by
      unfold shrinkCount
      omega
    rw [hc]
    exact ⟨by omega, by omega, rfl, List.Perm.refl _⟩
  | succ fuel ih =>
    intro i st hf
    by_cases hcond : (i : Int) < (st.views.length : Int) - (lengthNew : Int)
    · rw [shrinkLoop, dif_pos hcond]
      have hne : st.views ≠ [] := by
        intro hnil
        rw [hnil] at hcond
        simp at hcond
        omega
      obtain ⟨h1, h2, h3, h4⟩ := ih (i + 1)
        { st with views := st.views.dropLast,
                  pool := st.pool.concat (st.views.getLastD 0) }
        (by simp only [List.length_dropLast]; omega)
      simp only [List.length_dropLast, List.length_concat] at h1 h2
      refine ⟨?_, ?_, h3, ?_⟩
      · rw [h1]
        unfold shrinkCount
        omega
      · rw [h2]
        unfold shrinkCount
        omega
      · refine List.Perm.trans ?_ h4
        have hlast : st.views.getLastD 0 = st.views.getLast hne := by
          rw [List.getLastD_eq_getLast?, List.getLast?_eq_getLast st.views hne]
          rfl
        calc st.views ++ st.pool
            = (st.views.dropLast ++ [st.views.getLast hne]) ++ st.pool := by
              rw [List.dropLast_append_getLast hne]
          _ ~ st.views.dropLast ++ (st.pool ++ [st.views.getLast hne]) := by
              rw [List.append_assoc]
              exact List.Perm.append_left _ List.perm_append_comm
          _ = st.views.dropLast ++ st.pool.concat (st.views.getLastD 0) := by
              rw [hlast, List.concat_eq_append]
    · rw [shrinkLoop, dif_neg hcond]
      have hc : shrinkCount lengthNew i st.views.length = 0 := by
        unfold shrinkCount
        omega
      rw [hc]
      exact ⟨by omega, by omega, rfl, List.Perm.refl _⟩

theorem resize_spec (st : ViewState) (v : Nat) (hok : updateOk st v = true) :
    (resize st v).views.length + (resize st v).pool.length =
        max (st.views.length + st.pool.length) v ∧
    (resize st v).nextId =
        st.nextId + (v - (st.views.length + st.pool.length)) ∧
    (st.views ++ st.pool) <+~ ((resize st v).views ++ (resize st v).pool) := by
  unfold updateOk resize at *
  by_cases hgrow : st.views.length < v
  · rw [if_pos hgrow] at hok ⊢
    obtain ⟨h1, h2, h3, h4⟩ := growLoop_spec v (v + 1) 0 st (by omega)
    rw [h1] at hok
    simp only [decide_eq_true_eq] at hok
    refine ⟨?_, ?_, h4⟩
    · rw [h1, h2]
      unfold growCount at *
      split_ifs at * <;> omega
    · rw [h3]
      unfold growCount at *
      split_ifs at * <;> omega
  · rw [if_neg hgrow] at hok ⊢
    obtain ⟨h1, h2, h3, h4⟩ := shrinkLoop_spec v st.views.length 0 st (by omega)
    refine ⟨?_, ?_, h4.subperm⟩
    · rw [h1, h2]
      unfold shrinkCount at *
      omega
    · rw [h3]
      omega

theorem maxViews_cons (v : Nat) (vs : List Nat) :
    maxViews (v :: vs) = max v (maxViews vs) := rfl

theorem runFrames_spec (vs : List Nat) :
    ∀ st, allFramesOk st vs = true →
      (runFrames st vs).views.length + (runFrames st vs).pool.length =
          max (st.views.length + st.pool.length) (maxViews vs) ∧
      (runFrames st vs).nextId =
          st.nextId + (maxViews vs - (st.views.length + st.pool.length)) ∧
      (st.views ++ st.pool) <+~ ((runFrames st vs).views ++ (runFrames st vs).pool) := by
  induction vs with
  | nil =>
    intro st _
    refine ⟨?_, ?_, List.Subperm.refl _⟩ <;> simp [runFrames, maxViews]
  | cons v vs ih =>
    intro st hall
    rw [allFramesOk, Bool.and_eq_true] at hall
    obtain ⟨hok, hrest⟩ := hall
    obtain ⟨f1, f2, f3⟩ := resize_spec st v hok
    obtain ⟨r1, r2, r3⟩ := ih (resize st v) hrest
    have hrun : runFrames st (v :: vs) = runFrames (resize st v) vs := rfl
    rw [hrun, maxViews_cons]
    refine ⟨?_, ?_, f3.trans r3⟩
    · rw [r1, f1]
      omega
    · rw [r2, f2, f1]
      omega

/-- C3: the claim states that the resize step always leaves the active view
list with length exactly equal to the pose's view count.  The code violates
this: growing from 0 active views to a pose with 3 views, the growth loop's
bound `i <= lengthNew - this.views.length` is re-evaluated against the
mutated length and stops after only 2 appends, so the list has length 2, not
3 — and the subsequent per-view write loop, which indexes `this.views[i]`
for `i < 3`, reads an undefined entry (`updateOk` is false). -/
theorem c3_resize_count_mismatch :
    (resize (startSession [] 0) 3).views.length = 2 ∧
    (resize (startSession [] 0) 3).views.length ≠ 3 ∧
    updateOk (startSession [] 0) 3 = false := by
  have h : (resize (startSession [] 0) 3).views.length = 2 := by
    simp [resize, growLoop, growStep, startSession]
  refine ⟨h, by omega, ?_⟩
  simp [updateOk, h]

/-- C4: across the successfully processed frames of one session with view
counts `vs`, starting from an empty active list and a persistent pool, the
number of freshly allocated view records (`nextId` delta) equals
`max 0 (maxViews vs - pool size at session start)` (truncated subtraction),
and no record is ever discarded: every record present at session start is
still present, as a multiset, in the active list plus pool afterwards. -/
theorem c4_view_pool_allocation (pool : List Nat) (n0 : Nat) (vs : List Nat)
    (h : allFramesOk (startSession pool n0) vs = true) :
    (runFrames (startSession pool n0) vs).nextId - n0 =
        maxViews vs - pool.length ∧
    (pool : Multiset Nat) ≤
      ((runFrames (startSession pool n0) vs).views : Multiset Nat) +
        ((runFrames (startSession pool n0) vs).pool : Multiset Nat) := by
  obtain ⟨r1, r2, r3⟩ := runFrames_spec vs (startSession pool n0) h
  simp only [startSession] at r1 r2 r3 ⊢
  constructor
  · rw [r2]
    simp only [List.length_nil]
    omega
  · rw [Multiset.coe_add, Multiset.coe_le]
    simpa using r3

/-- Witness for C4 at a concrete run: pool of one record, frames 2, 1, 2;
one fresh record is allocated and the original pool record survives. -/
theorem c4_view_pool_allocation_witness :
    allFramesOk (startSession [100] 0) [2, 1, 2] = true ∧
    ((runFrames (startSession [100] 0) [2, 1, 2]).nextId - 0 =
        maxViews [2, 1, 2] - ([100] : List Nat).length ∧
      (([100] : List Nat) : Multiset Nat) ≤
        ((runFrames (startSession [100] 0) [2, 1, 2]).views : Multiset Nat) +
          ((runFrames (startSession [100] 0) [2, 1, 2]).pool : Multiset Nat)) :=
  ⟨by simp [allFramesOk, updateOk, resize, growLoop, shrinkLoop, growStep,
      startSession],
   c4_view_pool_allocation [100] 0 [2, 1, 2]
     (by simp [allFramesOk, updateOk, resize, growLoop, shrinkLoop, growStep,
        startSession])⟩

end XrPool

namespace XrMgr

/-- The three session types registered in the availability map by the
constructor (`XRTYPE_INLINE`, `XRTYPE_VR`, `XRTYPE_AR`). -/
inductive XrSessionType where
  | inline
  | immersiveVr
  | immersiveAr
deriving DecidableEq, Repr

/-- The slice of a host `XRSession` object the manager reads. -/
structure XrSessionObj where
  visibilityState : String
deriving DecidableEq, Repr

/-- Error conditions surfaced through callbacks (`new Error(...)` sites in
`xr-manager.js`). -/
inductive XrError where
  | notAvailable
  | alreadyStarted
  | notInitialized
  | imagePrep
  | requestRejected
  | refSpace
deriving DecidableEq, Repr

/-- Externally observable actions: invoked callbacks, fired events, and
requests issued to the host XR platform / application. -/
inductive Effect where
  | callback (err : Option XrError)
  | fireError
  | fireStart
  | fireEnd
  | fireAvailable (t : XrSessionType) (available : Bool)
  | fireAvailableType (t : XrSessionType) (available : Bool)
  | requestSession
  | requestReferenceSpace (spaceType : String)
  | requestSessionEnd
  | renderStateBase (depthNear depthFar : ℚ)
  | renderStateDepth (depthNear depthFar : ℚ)
  | tick
deriving DecidableEq, Repr

/-- Manager state (the mutable fields of `XrManager` that the claims touch).
`cameraXr c` models whether the render camera of camera component `c`
carries the back-reference `camera.camera.xr === this`; `camera` is
`this._camera`; `failed` models the `failed` flag of the `_onSessionStart`
closure (one start attempt at a time); `clipListeners` /
`sessionListeners` model the registered `set_nearClip`/`set_farClip` and
`end`/`visibilitychange` listeners; `viewsCount` is `this.views.length`. -/
structure XrState where
  available : XrSessionType → Bool
  session : Option XrSessionObj
  sessionType : Option XrSessionType
  spaceType : Option String
  camera : Option Nat
  cameraXr : Nat → Bool
  depthNear : ℚ
  depthFar : ℚ
  referenceSpace : Bool
  baseLayer : Bool
  viewsCount : Nat
  width : Nat
  height : Nat
  clipListeners : Bool
  sessionListeners : Bool
  failed : Bool

/-- State after the constructor (lines 194-223): all three availability
flags are explicitly initialized to `false`; `_depthNear = 0.1`,
`_depthFar = 1000`; no session, camera, listeners or reference space. -/
def initXrState : XrState where
  available := fun _ => false
  session := none
  sessionType := none
  spaceType := none
  camera := none
  cameraXr := fun _ => false
  depthNear := 1 / 10
  depthFar := 1000
  referenceSpace := false
  baseLayer := false
  viewsCount := 0
  width := 0
  height := 0
  clipListeners := false
  sessionListeners := false
  failed := false

/-- `isAvailable(type)` (lines 530-532): synchronous read of the flag. -/
def isAvailable (st : XrState) (t : XrSessionType) : Bool :=
  st.available t

/-- Completion of one `isSessionSupported` query
(`_sessionSupportCheck`, lines 545-556): if the result equals the stored
flag, nothing happens; otherwise the flag is updated and the two
availability events fire. -/
def sessionSupportCheckResolved (st : XrState) (t : XrSessionType)
    (available : Bool) : XrState × List Effect :=
  if st.available t = available then (st, [])
  else
    ({ st with available := fun t' => if t' = t then available else st.available t' },
     [Effect.fireAvailable t available, Effect.fireAvailableType t available])

/-- Rejection of an `isSessionSupported` query: an error event, no flag
change. -/
def sessionSupportCheckFailed (st : XrState) : XrState × List Effect :=
  (st, [Effect.fireError])

/-- `_setClipPlanes(near, far)` (lines 646-662): no-op if both stored depth
values already equal the arguments; otherwise store them, and if a session
is live push one incremental render-state update carrying only
depth-near/depth-far. -/
def setClipPlanes (st : XrState) (near far : ℚ) : XrState × List Effect :=
  if st.depthNear = near ∧ st.depthFar = far then (st, [])
  else
    let st' := { st with depthNear := near, depthFar := far }
    match st'.session with
    | none => (st', [])
    | some _ => (st', [Effect.renderStateDepth near far])

/-- `visibilityState` accessor (lines 831-836): `null` when no session,
otherwise the session's visibility state verbatim. -/
def visibilityState (st : XrState) : Option String :=
  match st.session with
  | none => none
  | some s => some s.visibilityState

/-- Depth-sensing parameters of the `start` options
(`options.depthSensing`). -/
structure DepthSensingParams where
  usagePreference : Option String
  dataFormatPreference : Option String
deriving DecidableEq, Repr

/-- The `start` options object.  A bare callback passed in place of the
options object behaves exactly like an options object whose feature fields
are all absent, so it is represented that way (`hasCallback` records whether
a callback was extracted at lines 366-369).  An absent `optionalFeatures`
field is represented by `[]` (concatenating `[]` is the identity). -/
structure StartOptions where
  hasCallback : Bool
  imageTracking : Bool
  planeDetection : Bool
  depthSensing : Option DepthSensingParams
  optionalFeatures : List String
deriving DecidableEq, Repr

/-- Whether a callback was supplied to `start`. -/
def hasCallback (options : Option StartOptions) : Bool :=
  match options with
  | some o => o.hasCallback
  | none => false

/-- State of the capability sub-modules read by `start`
(`this.imageTracking.supported`, `this.imageTracking.images.length`,
`this.domOverlay.supported`, `this.domOverlay.root`,
`this.depthSensing.supported`). -/
structure XrSubmodules where
  imageTrackingSupported : Bool
  imageTrackingImages : Nat
  domOverlaySupported : Bool
  domOverlayRoot : Bool
  depthSensingSupported : Bool
deriving DecidableEq, Repr

/-- The assembled session-request options (`opts` of `start`). -/
structure SessionRequestOpts where
  requiredFeatures : List String
  optionalFeatures : List String
  domOverlayRoot : Bool
  depthSensing : Option (List String × List String)
  trackedImages : Bool
deriving DecidableEq, Repr

/-- Modelled from the spec: `constants.js` is not part of the excerpt; the
default usage preference is documented at lines 346-349 of `xr-manager.js`
as 'cpu-optimized' (`XRDEPTHSENSINGUSAGE_CPU`). -/
def XRDEPTHSENSINGUSAGE_CPU : String := "cpu-optimized"

/-- Modelled from the spec: default data-format preference, documented at
lines 350-353 of `xr-manager.js` as 'luminance-alpha'
(`XRDEPTHSENSINGFORMAT_L8A8`). -/
def XRDEPTHSENSINGFORMAT_L8A8 : String := "luminance-alpha"

/-- The preference-list reordering of `start` (lines 424-434): look up the
caller value's index in the default list, remove it when found
(`indexOf` / `splice`), then `unshift` it to the front.  `List.indexOf`
returns the list's length when the element is absent, mirroring the
`ind !== -1` test. -/
def reorderPreference (defaults : List String) (pref : Option String) :
    List String :=
  match pref with
  | none => defaults
  | some p =>
    let ind := defaults.indexOf p
    let defaults' := if ind ≠ defaults.length then defaults.eraseIdx ind
      else defaults
    p :: defaults'

/-- Feature-assembly portion of `start` (lines 396-446), producing the
options later passed to `navigator.xr.requestSession`. -/
def buildSessionOptions (sessionType : XrSessionType) (spaceType : String)
    (options : Option StartOptions) (sub : XrSubmodules) : SessionRequestOpts :=
  let opts : SessionRequestOpts :=
    { requiredFeatures := [spaceType], optionalFeatures := [],
      domOverlayRoot := false, depthSensing := none, trackedImages := false }
  let opts :=
    if sessionType = XrSessionType.immersiveAr then
      let opts := { opts with
        optionalFeatures := opts.optionalFeatures ++ ["light-estimation", "hit-test"] }
      let opts :=
        match options with
        | some o =>
          let opts :=
            if o.imageTracking ∧ sub.imageTrackingSupported then
              { opts with optionalFeatures := opts.optionalFeatures ++ ["image-tracking"] }
            else opts
          if o.planeDetection then
            { opts with optionalFeatures := opts.optionalFeatures ++ ["plane-detection"] }
          else opts
        | none => opts
      let opts :=
        if sub.domOverlaySupported ∧ sub.domOverlayRoot then
          { opts with optionalFeatures := opts.optionalFeatures ++ ["dom-overlay"],
                      domOverlayRoot := true }
        else opts
      match options with
      | some o =>
        match o.depthSensing with
        | some ds =>
          if sub.depthSensingSupported then
            let opts := { opts with
              optionalFeatures := opts.optionalFeatures ++ ["depth-sensing"] }
            let prefs :=
              (reorderPreference [XRDEPTHSENSINGUSAGE_CPU] ds.usagePreference,
               reorderPreference [XRDEPTHSENSINGFORMAT_L8A8] ds.dataFormatPreference)
            { opts with depthSensing := some prefs }
          else opts
        | none => opts
      | none => opts
    else if sessionType = XrSessionType.immersiveVr then
      { opts with optionalFeatures := opts.optionalFeatures ++ ["hand-tracking"] }
    else opts
  match options with
  | some o => { opts with optionalFeatures := opts.optionalFeatures ++ o.optionalFeatures }
  | none => opts

/-- How the synchronous part of `start` continues. -/
inductive StartOutcome where
  | failedNotAvailable
  | failedAlreadyStarted
  | pendingImages (opts : SessionRequestOpts)
  | requestIssued (opts : SessionRequestOpts)
deriving DecidableEq, Repr

/-- The synchronous part of `start(camera, type, spaceType, options)`
(lines 365-464).  Fast-fail checks run first; on passing them the camera
cross-references, type and space type are installed and the clip planes
propagated, the option object is assembled, and either image-tracking
preparation is awaited (when the sub-module is supported and has configured
images) or the session request is issued immediately. -/
def startSync (st : XrState) (camera : Nat) (nearClip farClip : ℚ)
    (sessionType : XrSessionType) (spaceType : String)
    (options : Option StartOptions) (sub : XrSubmodules) :
    XrState × List Effect × StartOutcome :=
  if st.available sessionType = false then
    (st, (if hasCallback options then [Effect.callback (some XrError.notAvailable)] else []),
     StartOutcome.failedNotAvailable)
  else if st.session.isSome then
    (st, (if hasCallback options then [Effect.callback (some XrError.alreadyStarted)] else []),
     StartOutcome.failedAlreadyStarted)
  else
    let st' := { st with
      camera := some camera,
      cameraXr := fun c => if c = camera then true else st.cameraXr c,
      sessionType := some sessionType,
      spaceType := some spaceType }
    let clip := setClipPlanes st' nearClip farClip
    let opts := buildSessionOptions sessionType spaceType options sub
    if sub.imageTrackingSupported ∧ sub.imageTrackingImages ≠ 0 then
      (clip.1, clip.2, StartOutcome.pendingImages opts)
    else
      (clip.1, clip.2 ++ [Effect.requestSession], StartOutcome.requestIssued opts)

/-- Failure of the asynchronous image-tracking preparation (lines 449-454):
the callback and the error event fire, and nothing else happens — in
particular the session request is never issued and no state is cleared. -/
def imagePrepFailed (st : XrState) (hasCb : Bool) : XrState × List Effect :=
  (st, (if hasCb then [Effect.callback (some XrError.imagePrep)] else []) ++
    [Effect.fireError])

/-- Success of the image-tracking preparation (lines 456-459): the tracked
images are attached when non-null and the session request is issued. -/
def imagePrepSucceeded (st : XrState) (opts : SessionRequestOpts)
    (tracked : Bool) : XrState × SessionRequestOpts × List Effect :=
  (st, { opts with trackedImages := tracked }, [Effect.requestSession])

/-- Rejection of `navigator.xr.requestSession`
(`_onStartOptionsReady`, lines 476-484): clear the camera back-reference
and the bound camera, type and space type, then invoke the callback and
fire the error event.  (The source dereferences `this._camera`
unconditionally; the `none` branch is unreachable in the modelled flows.) -/
def sessionRequestRejected (st : XrState) (hasCb : Bool) :
    XrState × List Effect :=
  let st' :=
    match st.camera with
    | some c => { st with
        cameraXr := fun c' => if c' = c then false else st.cameraXr c',
        camera := none }
    | none => { st with camera := none }
  let st2 := { st' with sessionType := none, spaceType := none }
  (st2, (if hasCb then [Effect.callback (some XrError.requestRejected)] else []) ++
    [Effect.fireError])

/-- Synchronous part of `_onSessionStart` (lines 564-632): reset the
per-attempt `failed` flag, store the session, register the session
`end`/`visibilitychange` listeners and the camera clip-plane listeners,
create the base layer, push the initial full render state, and issue the
reference-space request. -/
def onSessionStartSync (st : XrState) (session : XrSessionObj)
    (spaceType : String) : XrState × List Effect :=
  let st' := { st with
    failed := false,
    session := some session,
    sessionListeners := true,
    clipListeners := true,
    baseLayer := true }
  (st', [Effect.renderStateBase st.depthNear st.depthFar,
         Effect.requestReferenceSpace spaceType])

/-- Fulfilment of the reference-space request (lines 624-632): store the
space, queue a tick, invoke the callback with no error, fire `start`. -/
def refSpaceResolved (st : XrState) (hasCb : Bool) : XrState × List Effect :=
  ({ st with referenceSpace := true },
   [Effect.tick] ++ (if hasCb then [Effect.callback none] else []) ++
     [Effect.fireStart])

/-- Rejection of the reference-space request (lines 633-638): set the
`failed` flag, request host-level session termination, invoke the callback
with the error, fire the error event.  The actual teardown runs later
through the session `end` event (`onEndEvent`). -/
def refSpaceRejected (st : XrState) (hasCb : Bool) : XrState × List Effect :=
  ({ st with failed := true },
   [Effect.requestSessionEnd] ++
     (if hasCb then [Effect.callback (some XrError.refSpace)] else []) ++
     [Effect.fireError])

/-- The `onEnd` listener of `_onSessionStart` (lines 578-603): unregister
the camera clip-plane listeners and clear the camera cross-references (when
a camera is bound), unregister the session listeners, fire `end` unless the
attempt failed, reset all session-scoped state, and queue a tick. -/
def onEndEvent (st : XrState) : XrState × List Effect :=
  let st1 :=
    match st.camera with
    | some c => { st with
        clipListeners := false,
        cameraXr := fun c' => if c' = c then false else st.cameraXr c',
        camera := none }
    | none => st
  let st2 := { st1 with sessionListeners := false }
  let endFx := if st2.failed = false then [Effect.fireEnd] else []
  let st3 := { st2 with
    session := none,
    referenceSpace := false,
    viewsCount := 0,
    width := 0,
    height := 0,
    sessionType := none,
    spaceType := none }
  (st3, endFx ++ [Effect.tick])

end XrMgr

namespace XrMgr

/-- Stated from the spec's words, for comparison with the source's
`reorderPreference`: the caller-specified value is moved to the front of
the default list after being removed from its old position. -/
def movePrefToFront (defaults : List String) (pref : Option String) :
    List String :=
  match pref with
  | none => defaults
  | some p => p :: defaults.erase p

theorem eraseIdx_indexOf_eq_erase (p : String) :
    ∀ l : List String, l.eraseIdx (l.indexOf p) = l.erase p := by
  intro l
  induction l with
  | nil => rfl
  | cons a l ih =>
    by_cases h : a = p
    · subst h
      rw [List.indexOf_cons_self, List.eraseIdx_zero, List.erase_cons_head]
      rfl
    · rw [List.indexOf_cons_ne l h, List.erase_cons_tail (by simpa using h)]
      rw [Nat.succ_eq_add_one, List.eraseIdx_cons_succ, ih]

/-- The source's index-based reordering agrees with the spec's description
on every default list and caller preference. -/
theorem reorderPreference_eq_movePrefToFront (defaults : List String)
    (pref : Option String) :
    reorderPreference defaults pref = movePrefToFront defaults pref := by
  cases pref with
  | none => rfl
  | some p =>
    unfold reorderPreference movePrefToFront
    by_cases hm : p ∈ defaults
    · have hlt : defaults.indexOf p ≠ defaults.length :=
        Nat.ne_of_lt (List.indexOf_lt_length.mpr hm)
      simp only [hlt, if_true, ne_eq, not_false_eq_true, if_pos]
      rw [eraseIdx_indexOf_eq_erase]
    · have heq : defaults.indexOf p = defaults.length :=
        List.indexOf_eq_length.mpr hm
      simp only [heq, ne_eq, not_true_eq_false, if_false]
      rw [List.erase_of_not_mem hm]

end XrMgr

namespace CameraComp

/-- `CameraComponent.requestSceneDepthMap(enabled)` (component.js, lines
307-314): `this._renderSceneDepthMap += enabled ? 1 : -1`.  The counter is
initialized to 0 (line 147); `Debug.assert(this._renderSceneDepthMap >= 0)`
documents the intended invariant but does not clamp or guard the value. -/
def requestSceneDepthMap (renderSceneDepthMap : Int) (enabled : Bool) : Int :=
  renderSceneDepthMap + (if enabled then 1 else -1)

/-- A sequence of `requestSceneDepthMap` calls applied to the counter. -/
def runDepthMapCalls (c : Int) (calls : List Bool) : Int :=
  calls.foldl requestSceneDepthMap c

theorem runDepthMapCalls_eq :
    ∀ (calls : List Bool) (c : Int),
      runDepthMapCalls c calls =
        c + calls.count true - calls.count false := by
  intro calls
  induction calls with
  | nil =>
    intro c
    simp [runDepthMapCalls]
  | cons b calls ih =>
    intro c
    have hstep : runDepthMapCalls c (b :: calls) =
        runDepthMapCalls (requestSceneDepthMap c b) calls := rfl
    rw [hstep, ih]
    cases b <;> simp [requestSceneDepthMap, List.count_cons] <;> omega

end CameraComp

namespace XrMgr

/-- Submodule flags with every optional capability off. -/
def noSub : XrSubmodules :=
  { imageTrackingSupported := false, imageTrackingImages := 0,
    domOverlaySupported := false, domOverlayRoot := false,
    depthSensingSupported := false }

/-- A state in which a previous `start`'s negotiation is still in flight:
the synchronous part of `start` has bound the camera, type and space type,
but `_session` is still null because `requestSession` has not resolved. -/
def inFlightState : XrState :=
  { initXrState with
    available := fun _ => true,
    camera := some 0,
    cameraXr := fun c => c == 0,
    sessionType := some XrSessionType.immersiveVr,
    spaceType := some "local-floor" }

/-- A state with a fully active VR session bound to camera 0. -/
def activeState : XrState :=
  { initXrState with
    available := fun _ => true,
    session := some { visibilityState := "visible" },
    sessionType := some XrSessionType.immersiveVr,
    spaceType := some "local-floor",
    camera := some 0,
    cameraXr := fun c => c == 0,
    referenceSpace := true,
    baseLayer := true,
    clipListeners := true,
    sessionListeners := true }

/-- C1 counterexample: while a previous start's asynchronous negotiation
has not yet completed (`_session` is still null, but `_camera`, `_type`,
`_spaceType` are bound), a second `start` is not rejected with 'already
started': it proceeds towards a session request and overwrites the pending
negotiation's session type. -/
theorem c1_counterexample_inflight_start :
    (startSync inFlightState 1 1 1000 XrSessionType.immersiveAr "local" none
        noSub).2.2 ≠ StartOutcome.failedAlreadyStarted ∧
    (startSync inFlightState 1 1 1000 XrSessionType.immersiveAr "local" none
        noSub).1.sessionType = some XrSessionType.immersiveAr ∧
    inFlightState.sessionType = some XrSessionType.immersiveVr := by
  refine ⟨?_, ?_, rfl⟩ <;>
    norm_num [startSync, inFlightState, initXrState, setClipPlanes,
      hasCallback, noSub]
  exact fun h => StartOutcome.noConfusion h

/-- C1 (amended): when the requested type is available and a session is
already active, `start` fails synchronously, invokes that call's callback
with the 'already started' error, and returns the manager state — hence
the first session's state — entirely unchanged.  (A start issued while a
previous negotiation is merely in flight is not guarded, per the
counterexample.) -/
theorem c1_start_while_active (st : XrState) (camera : Nat)
    (nearClip farClip : ℚ) (t : XrSessionType) (sp : String)
    (options : Option StartOptions) (sub : XrSubmodules)
    (hav : st.available t = true) (hs : st.session.isSome = true) :
    startSync st camera nearClip farClip t sp options sub =
      (st,
       (if hasCallback options then
          [Effect.callback (some XrError.alreadyStarted)] else []),
       StartOutcome.failedAlreadyStarted) := by
  simp [startSync, hav, hs]

/-- Witness for the amended C1 at a concrete active session. -/
theorem c1_start_while_active_witness :
    (activeState.available XrSessionType.immersiveAr = true ∧
      activeState.session.isSome = true) ∧
    startSync activeState 1 1 1000 XrSessionType.immersiveAr "local" none
        noSub =
      (activeState,
       (if hasCallback none then
          [Effect.callback (some XrError.alreadyStarted)] else []),
       StartOutcome.failedAlreadyStarted) :=
  ⟨⟨rfl, rfl⟩,
   c1_start_while_active activeState 1 1 1000 XrSessionType.immersiveAr
     "local" none noSub rfl rfl⟩

/-- A state in which AR is available and nothing is bound yet. -/
def arAvailState : XrState := { initXrState with available := fun _ => true }

/-- Submodules with image tracking supported and two configured images. -/
def imgSub : XrSubmodules :=
  { imageTrackingSupported := true, imageTrackingImages := 2,
    domOverlaySupported := false, domOverlayRoot := false,
    depthSensingSupported := false }

/-- Options with a callback and no optional capabilities. -/
def plainOpts : StartOptions :=
  { hasCallback := true, imageTracking := false, planeDetection := false,
    depthSensing := none, optionalFeatures := [] }

/-- The synchronous part of a `start` that defers to image preparation. -/
def prepStart : XrState × List Effect × StartOutcome :=
  startSync arAvailState 7 2 500 XrSessionType.immersiveAr "local"
    (some plainOpts) imgSub

/-- C2, evaluated at the failing input: with image tracking supported and
images configured, `start` defers to asynchronous image preparation without
issuing the session request; when preparation fails, the callback and the
error event fire and the session request is never issued — but the
back-reference `camera.camera.xr` installed at the top of `start` stays in
place (and `_type` stays bound), contradicting the claim that the
back-reference is absent after every failure path. -/
theorem c2_image_prep_failure_keeps_backref :
    prepStart.2.2 =
      StartOutcome.pendingImages
        (buildSessionOptions XrSessionType.immersiveAr "local"
          (some plainOpts) imgSub) ∧
    Effect.requestSession ∉ prepStart.2.1 ∧
    (imagePrepFailed prepStart.1 true).1.cameraXr 7 = true ∧
    (imagePrepFailed prepStart.1 true).1.sessionType =
      some XrSessionType.immersiveAr ∧
    (imagePrepFailed prepStart.1 true).2 =
      [Effect.callback (some XrError.imagePrep), Effect.fireError] ∧
    Effect.requestSession ∉ (imagePrepFailed prepStart.1 true).2 := by
  refine ⟨?_, ?_, ?_, ?_, ?_, by decide⟩ <;>
    norm_num [prepStart, startSync, arAvailState, initXrState, setClipPlanes,
      hasCallback, plainOpts, imgSub, imagePrepFailed, buildSessionOptions]

/-- C5: for an AR start with depth sensing requested and supported, the
session-request options carry exactly the preference object built by
taking the fixed default ordered lists and moving any caller-specified
value to the front after removing it from its old position; in particular
usage preference "gpu-optimized" yields
["gpu-optimized", "cpu-optimized"]. -/
theorem c5_depth_sensing_preferences (sp : String) (o : StartOptions)
    (ds : DepthSensingParams) (sub : XrSubmodules)
    (ho : o.depthSensing = some ds) (hsub : sub.depthSensingSupported = true) :
    (buildSessionOptions XrSessionType.immersiveAr sp (some o)
        sub).depthSensing =
      some (movePrefToFront [XRDEPTHSENSINGUSAGE_CPU] ds.usagePreference,
            movePrefToFront [XRDEPTHSENSINGFORMAT_L8A8]
              ds.dataFormatPreference) ∧
    movePrefToFront [XRDEPTHSENSINGUSAGE_CPU] (some "gpu-optimized") =
      ["gpu-optimized", "cpu-optimized"] := by
  constructor
  · simp only [buildSessionOptions, ho, hsub,
      reorderPreference_eq_movePrefToFront]
    split_ifs <;> rfl
  · decide

/-- Options requesting depth sensing with usage preference
"gpu-optimized". -/
def dsOpts : StartOptions :=
  { hasCallback := true, imageTracking := false, planeDetection := false,
    depthSensing := some { usagePreference := some "gpu-optimized",
                           dataFormatPreference := none },
    optionalFeatures := [] }

/-- Submodules with depth sensing supported. -/
def dsSub : XrSubmodules :=
  { imageTrackingSupported := false, imageTrackingImages := 0,
    domOverlaySupported := false, domOverlayRoot := false,
    depthSensingSupported := true }

/-- Witness for C5 at the concrete gpu-optimized request. -/
theorem c5_depth_sensing_preferences_witness :
    (dsOpts.depthSensing =
        some { usagePreference := some "gpu-optimized",
               dataFormatPreference := none } ∧
      dsSub.depthSensingSupported = true) ∧
    ((buildSessionOptions XrSessionType.immersiveAr "local" (some dsOpts)
        dsSub).depthSensing =
      some (movePrefToFront [XRDEPTHSENSINGUSAGE_CPU] (some "gpu-optimized"),
            movePrefToFront [XRDEPTHSENSINGFORMAT_L8A8] none) ∧
      movePrefToFront [XRDEPTHSENSINGUSAGE_CPU] (some "gpu-optimized") =
        ["gpu-optimized", "cpu-optimized"]) :=
  ⟨⟨rfl, rfl⟩,
   c5_depth_sensing_preferences "local" dsOpts
     { usagePreference := some "gpu-optimized", dataFormatPreference := none }
     dsSub rfl rfl⟩

/-- C6: when the reference-space request fails after session and render
state are already bound, the manager marks the attempt failed, requests
host session termination, invokes the start callback with the error and
fires the error event; the subsequent session `end` event then runs the
full teardown — clearing the camera's back-reference and the bound camera,
unregistering clip-plane and session listeners, and resetting all
session-scoped state — while the `end` notification is suppressed (the
effect list of the teardown is exactly `[tick]`). -/
theorem c6_ref_space_failure_rollback (st : XrState) (s : XrSessionObj)
    (c : Nat) (_hs : st.session = some s) (hc : st.camera = some c)
    (_hcl : st.clipListeners = true) (_hsl : st.sessionListeners = true) :
    (refSpaceRejected st true).1.failed = true ∧
    (refSpaceRejected st true).2 =
      [Effect.requestSessionEnd, Effect.callback (some XrError.refSpace),
       Effect.fireError] ∧
    (onEndEvent (refSpaceRejected st true).1).2 = [Effect.tick] ∧
    (onEndEvent (refSpaceRejected st true).1).1.cameraXr c = false ∧
    (onEndEvent (refSpaceRejected st true).1).1 =
      { st with failed := true, camera := none,
                cameraXr := (fun c' => if c' = c then false
                  else st.cameraXr c'),
                clipListeners := false, sessionListeners := false,
                session := none, referenceSpace := false, viewsCount := 0,
                width := 0, height := 0, sessionType := none,
                spaceType := none } := by
  unfold refSpaceRejected onEndEvent
  simp [hc]

/-- Witness for C6 at the concrete active session. -/
theorem c6_ref_space_failure_rollback_witness :
    (activeState.session = some { visibilityState := "visible" } ∧
      activeState.camera = some 0 ∧ activeState.clipListeners = true ∧
      activeState.sessionListeners = true) ∧
    ((refSpaceRejected activeState true).1.failed = true ∧
      (refSpaceRejected activeState true).2 =
        [Effect.requestSessionEnd, Effect.callback (some XrError.refSpace),
         Effect.fireError] ∧
      (onEndEvent (refSpaceRejected activeState true).1).2 = [Effect.tick] ∧
      (onEndEvent (refSpaceRejected activeState true).1).1.cameraXr 0 =
        false ∧
      (onEndEvent (refSpaceRejected activeState true).1).1 =
        { activeState with
            failed := true, camera := none,
            cameraXr := (fun c' => if c' = 0 then false
              else activeState.cameraXr c'),
            clipListeners := false, sessionListeners := false,
            session := none, referenceSpace := false, viewsCount := 0,
            width := 0, height := 0, sessionType := none,
            spaceType := none }) :=
  ⟨⟨rfl, rfl, rfl, rfl⟩,
   c6_ref_space_failure_rollback activeState { visibilityState := "visible" }
     0 rfl rfl rfl rfl⟩

/-- C7: while a session is active, a clip-plane change to values differing
from the bound ones issues exactly one render-state update carrying only
depth-near and depth-far and stores the new values; when the new values
equal the currently bound ones, no update is issued and both the stored
values and the session state are left unchanged. -/
theorem c7_clip_plane_updates (st : XrState) (s : XrSessionObj)
    (near far : ℚ) (hs : st.session = some s) :
    (¬(st.depthNear = near ∧ st.depthFar = far) →
      (setClipPlanes st near far).2 = [Effect.renderStateDepth near far] ∧
      (setClipPlanes st near far).1 =
        { st with depthNear := near, depthFar := far }) ∧
    ((st.depthNear = near ∧ st.depthFar = far) →
      setClipPlanes st near far = (st, [])) := by
  constructor
  · intro hne
    unfold setClipPlanes
    rw [if_neg hne]
    simp [hs]
  · intro heq
    unfold setClipPlanes
    rw [if_pos heq]

/-- Witness for C7 at the concrete active session with changed planes. -/
theorem c7_clip_plane_updates_witness :
    activeState.session = some { visibilityState := "visible" } ∧
    ((¬(activeState.depthNear = 2 ∧ activeState.depthFar = 500) →
      (setClipPlanes activeState 2 500).2 =
        [Effect.renderStateDepth 2 500] ∧
      (setClipPlanes activeState 2 500).1 =
        { activeState with depthNear := 2, depthFar := 500 }) ∧
    ((activeState.depthNear = 2 ∧ activeState.depthFar = 500) →
      setClipPlanes activeState 2 500 = (activeState, []))) :=
  ⟨rfl,
   c7_clip_plane_updates activeState { visibilityState := "visible" } 2 500
     rfl⟩

/-- C9: right after construction — before any asynchronous capability check
completes — every availability flag is false, and any `start` issued in
that state fails synchronously with the 'not available' error, leaving the
manager state unchanged; a completed support check is the only transition
that sets a flag. -/
theorem c9_initially_unavailable :
    (∀ t, isAvailable initXrState t = false) ∧
    (∀ (camera : Nat) (nearClip farClip : ℚ) (t : XrSessionType)
        (sp : String) (options : Option StartOptions) (sub : XrSubmodules),
      startSync initXrState camera nearClip farClip t sp options sub =
        (initXrState,
         (if hasCallback options then
            [Effect.callback (some XrError.notAvailable)] else []),
         StartOutcome.failedNotAvailable)) ∧
    (∀ t, (sessionSupportCheckResolved initXrState t true).1.available t =
      true) := by
  refine ⟨fun t => rfl, fun camera nearClip farClip t sp options sub => rfl,
    fun t => ?_⟩
  simp [sessionSupportCheckResolved, initXrState, isAvailable]

/-- C10: the `visibilityState` accessor returns null whenever no session is
active, and the active session's visibility state verbatim otherwise. -/
theorem c10_visibility_state :
    (∀ st : XrState, st.session = none → visibilityState st = none) ∧
    (∀ (st : XrState) (s : XrSessionObj), st.session = some s →
      visibilityState st = some s.visibilityState) := by
  constructor
  · intro st h
    unfold visibilityState
    rw [h]
  · intro st s h
    unfold visibilityState
    rw [h]

/-- Witness for C10 at concrete states with and without a session. -/
theorem c10_visibility_state_witness :
    activeState.session = some { visibilityState := "visible" } ∧
    visibilityState activeState = some "visible" :=
  ⟨rfl,
   c10_visibility_state.2 activeState { visibilityState := "visible" } rfl⟩

end XrMgr

namespace CameraComp

/-- C8 counterexample: a single `requestSceneDepthMap(false)` call from the
initial counter value 0 — one more disable than the zero enables — drives
`_renderSceneDepthMap` to −1, so the asserted invariant
`_renderSceneDepthMap >= 0` does not hold after that call. -/
theorem c8_counterexample_negative_counter :
    runDepthMapCalls 0 [false] = -1 ∧ runDepthMapCalls 0 [false] < 0 := by
  decide

/-- C8 (amended): each call moves the counter by exactly ±1 with no
clamping, so after any initial segment of calls the counter equals
enables − disables; it remains non-negative after every call provided no
initial segment contains more disables than enables (with an excess
disable, it does go negative — only the debug assertion flags this). -/
theorem c8_counter_nonneg_when_balanced (calls : List Bool)
    (h : ∀ n, n ≤ calls.length →
      ((calls.take n).count false : Int) ≤ (calls.take n).count true) :
    ∀ n, 0 ≤ runDepthMapCalls 0 (calls.take n) := by
  intro n
  rcases le_or_lt n calls.length with hn | hn
  · have hbal := h n hn
    rw [runDepthMapCalls_eq]
    omega
  · have htake : calls.take n = calls := List.take_of_length_le (le_of_lt hn)
    have hbal := h calls.length (le_refl _)
    rw [List.take_length] at hbal
    rw [htake, runDepthMapCalls_eq]
    omega

/-- Witness for the amended C8 on the call sequence enable, disable. -/
theorem c8_counter_nonneg_when_balanced_witness :
    (∀ n, n ≤ ([true, false] : List Bool).length →
      ((([true, false] : List Bool).take n).count false : Int) ≤
        (([true, false] : List Bool).take n).count true) ∧
    0 ≤ runDepthMapCalls 0 (([true, false] : List Bool).take 1) :=
  ⟨by decide, c8_counter_nonneg_when_balanced [true, false] (by decide) 1⟩

end CameraComp
